import Mathlib

/-!
Formal model of the sensor core, the temperature sensor and the logger of
the Industrial AI-Powered Edge Monitoring System (C sources under src).
Modelling conventions, stated once here and referenced by the doc comments
below:
  - C float values are modelled as exact rationals; the FLT_MAX sentinel is
    the exact value of the IEEE single precision maximum, 2 pow 128 - 2 pow 104.
  - unsigned 32 bit time arithmetic is modelled on Nat with explicit
    reduction modulo 2 pow 32 (the debounce subtraction wraps as in C);
    the uint32 sample and error counters are modelled as Nat, their
    wrap after 2 pow 32 increments is not the subject of any claim.
  - the module level private_data pointers are threaded explicitly as an
    Option state argument and result; NULL pointer arguments are Option.none.
  - the three behaviour slots of Sensor are function pointers in C; the
    model keeps a presence flag read_bound for the read slot (the only slot
    whose presence the verified claims inspect) and passes the body of the
    bound read implementation explicitly where sensor_read_data invokes it.
  - strncpy truncation is modelled by taking a prefix of the character
    list; byte lengths of the ASCII log lines are modelled by character
    counts.
-/

set_option maxRecDepth 100000

namespace EdgeTrack

/-- Error codes of the SensorError enumeration in sensor.h. -/
inductive SensorError where
  | NONE
  | INVALID_PARAM
  | INIT_FAILED
  | READ_FAILED
  | OUT_OF_RANGE
  | HARDWARE
  | MEMORY
  | COMMUNICATION
  | CALIBRATION
deriving DecidableEq

/-- Sensor types of the SensorType enumeration in sensor.h. -/
inductive SensorType where
  | TEMPERATURE
  | HUMIDITY
  | PRESSURE
  | GAS
  | VIBRATION
  | CURRENT
  | VOLTAGE
  | POWER
  | FLOW
  | LEVEL
  | POSITION
  | SPEED
  | ACCELERATION
  | GYROSCOPE
  | MAGNETIC
deriving DecidableEq

/-- The SensorData record of sensor.h. -/
structure SensorData where
  type : SensorType
  value : ℚ
  timestamp : Nat
  is_valid : Bool
  error : SensorError
  unit : String
deriving DecidableEq

/-- The Sensor record of sensor.h.  The function pointer slots are not
stored as values; read_bound records whether the read slot is non NULL
(sensor_init leaves it untouched, temperature_sensor_init binds it). -/
structure Sensor where
  type : SensorType
  id : String
  name : String
  location : String
  read_bound : Bool
  last_error : SensorError
  sample_count : Nat
  error_count : Nat
deriving DecidableEq

/-- strncpy with a size n buffer keeps at most n - 1 characters; the model
takes the prefix of the character list. -/
def strncpy_take (s : String) (n : Nat) : String :=
  String.mk (s.data.take n)

/-- The per type default unit table of sensor_read_data in sensor.c. -/
def default_unit : SensorType → String
  | .TEMPERATURE => "°C"
  | .HUMIDITY => "%"
  | .PRESSURE => "kPa"
  | .GAS => "ppm"
  | .VIBRATION => "g"
  | .CURRENT => "A"
  | .VOLTAGE => "V"
  | .POWER => "W"
  | .FLOW => "L/min"
  | .LEVEL => "m"
  | .POSITION => "mm"
  | .SPEED => "rpm"
  | .ACCELERATION => "m/s²"
  | .GYROSCOPE => "°/s"
  | .MAGNETIC => "µT"

/-- sensor_init of sensor.c.  After binding the default slots it invokes
the just bound default init slot, which always returns true, so the
INIT_FAILED branch of the C code is dead and the function succeeds for
every non NULL sensor and id. -/
def sensor_init (sensor : Option Sensor) (type : SensorType) (id : Option String) :
    Option Sensor × Bool :=
  match sensor, id with
  | none, _ => (none, false)
  | some s, none => (some { s with last_error := SensorError.INVALID_PARAM }, false)
  | some s, some idStr =>
    (some { s with
        type := type,
        id := strncpy_take idStr 31,
        name := "",
        location := "",
        sample_count := 0,
        error_count := 0,
        last_error := SensorError.NONE },
     true)

/-- sensor_set_name of sensor.c (non NULL arguments). -/
def sensor_set_name (s : Sensor) (n : String) : Sensor :=
  { s with name := strncpy_take n 63 }

/-- sensor_set_location of sensor.c (non NULL arguments). -/
def sensor_set_location (s : Sensor) (l : String) : Sensor :=
  { s with location := strncpy_take l 63 }

/-- The record prelude of sensor_read_data in sensor.c, run on every call
that passes the argument checks: stamps the sensor type and the current
timestamp, clears is_valid, resets the error and sets the type derived
default unit. -/
def stamp_record (s : Sensor) (d : SensorData) (now : Nat) : SensorData :=
  { d with
      type := s.type,
      timestamp := now % 2 ^ 32,
      is_valid := false,
      error := SensorError.NONE,
      unit := strncpy_take (default_unit s.type) 15 }

/-- sensor_read_data of sensor.c.  The argument impl is the body of the
function stored in the read slot; it receives the stamped record and
returns the updated record together with its boolean result.  now is the
value of time(NULL) in seconds. -/
def sensor_read_data (sensor : Option Sensor) (data : Option SensorData) (now : Nat)
    (impl : SensorData → SensorData × Bool) :
    Option Sensor × Option SensorData × Bool :=
  match sensor with
  | none => (none, data, false)
  | some s =>
    match data with
    | none => (some { s with last_error := SensorError.INVALID_PARAM }, none, false)
    | some d =>
      if s.read_bound = false then
        (some { s with last_error := SensorError.INVALID_PARAM }, some d, false)
      else
        let stamped : SensorData := stamp_record s d now
        let s1 := { s with sample_count := s.sample_count + 1 }
        let out := impl stamped
        if out.2 then
          (some { s1 with last_error := SensorError.NONE }, some out.1, true)
        else
          (some { s1 with
              last_error := out.1.error,
              error_count := s1.error_count + 1 },
           some out.1, false)

/-- The exact value of the single precision maximum FLT_MAX. -/
def FLT_MAX : ℚ := 2 ^ 128 - 2 ^ 104

/-- The TemperatureConfig record of temperature_sensor.h. -/
structure TemperatureConfig where
  min_temp : ℚ
  max_temp : ℚ
  alert_threshold : ℚ
  critical_threshold : ℚ
  calibration_offset : ℚ
  sampling_rate_ms : Nat
  enable_humidity : Bool
  enable_dew_point : Bool
  enable_heat_index : Bool
deriving DecidableEq

/-- The TemperatureStats record of temperature_sensor.h. -/
structure TemperatureStats where
  min_value : ℚ
  max_value : ℚ
  avg_value : ℚ
  std_deviation : ℚ
  sample_count : Nat
  alert_count : Nat
  critical_count : Nat
deriving DecidableEq

/-- The TemperatureSensorData record of temperature_sensor.h. -/
structure TemperatureSensorData where
  temperature : ℚ
  humidity : ℚ
  dew_point : ℚ
  heat_index : ℚ
deriving DecidableEq

/-- The TemperatureSensorPrivate record of temperature_sensor.c. -/
structure TemperatureSensorPrivate where
  config : TemperatureConfig
  last_reading : TemperatureSensorData
  stats : TemperatureStats
  last_sample_time : Nat
deriving DecidableEq

/-- The statistics seeding of temperature_sensor_init (lines 62 to 68 of
temperature_sensor.c): min and max start at the FLT_MAX sentinels. -/
def initStats : TemperatureStats :=
  { min_value := FLT_MAX,
    max_value := -FLT_MAX,
    avg_value := 0,
    std_deviation := 0,
    sample_count := 0,
    alert_count := 0,
    critical_count := 0 }

/-- calculate_dew_point of temperature_sensor.c. -/
def calculate_dew_point (temperature humidity : ℚ) : ℚ :=
  temperature - ((100 - humidity) / 5)

/-- calculate_heat_index of temperature_sensor.c. -/
def calculate_heat_index (temperature humidity : ℚ) : ℚ :=
  let temp_f := temperature * 9 / 5 + 32
  let hi_f := (1 / 2) * (temp_f + 61 + ((temp_f - 68) * (12 / 10)) + (humidity * (94 / 1000)))
  (hi_f - 32) * 5 / 9

/-- The uint32 subtraction current_time - last_sample_time of
temperature_read, with wrap around modulo 2 pow 32. -/
def elapsed32 (current last : Nat) : Nat :=
  (current % 2 ^ 32 + 2 ^ 32 - last % 2 ^ 32) % 2 ^ 32

/-- update_stats of temperature_sensor.c (the non NULL branch; the caller
temperature_read only invokes it with the allocated private state).  The
average is updated before the count increment, so the formula uses the old
count. -/
def update_stats (stats : TemperatureStats) (value : ℚ) : TemperatureStats :=
  let s1 := if value < stats.min_value then { stats with min_value := value } else stats
  let s2 := if s1.max_value < value then { s1 with max_value := value } else s1
  { s2 with
      avg_value := (s2.avg_value * (s2.sample_count : ℚ) + value) / ((s2.sample_count : ℚ) + 1),
      sample_count := s2.sample_count + 1 }

/-- temperature_read of temperature_sensor.c.  now is the millisecond
value computed from time(NULL); sample is the simulated base plus random
variation (base_temp + variation) before the calibration offset; humid is
the simulated humidity sample.  The two threshold ifs of the C code are
modelled by equivalent conditionals on the alert and critical conditions:
each if sets the error to OUT_OF_RANGE and increments its counter exactly
when its strict comparison fires, so the flattened form below assigns the
same error and the same counters as the sequential C ifs. -/
def temperature_read (priv : Option TemperatureSensorPrivate) (data : Option SensorData)
    (now : Nat) (sample humid : ℚ) :
    Option TemperatureSensorPrivate × Option SensorData × Bool :=
  match data, priv with
  | none, _ => (priv, none, false)
  | some d, none => (priv, some { d with error := SensorError.INVALID_PARAM }, false)
  | some d, some p =>
    if elapsed32 now p.last_sample_time < p.config.sampling_rate_ms then
      (some p,
       some { d with
           value := p.last_reading.temperature,
           is_valid := true,
           error := SensorError.NONE },
       true)
    else
      let temp := sample + p.config.calibration_offset
      let humidity := if p.config.enable_humidity then humid else 0
      let dew :=
        if p.config.enable_dew_point ∧ 0 < humidity then
          calculate_dew_point temp humidity
        else p.last_reading.dew_point
      let heat :=
        if p.config.enable_heat_index ∧ 0 < humidity then
          calculate_heat_index temp humidity
        else p.last_reading.heat_index
      let d1 : SensorData :=
        { d with value := temp, is_valid := true, error := SensorError.NONE }
      let stats1 := update_stats p.stats temp
      let p1 : TemperatureSensorPrivate :=
        { p with
            last_reading :=
              { temperature := temp, humidity := humidity, dew_point := dew, heat_index := heat },
            stats := stats1,
            last_sample_time := now % 2 ^ 32 }
      if temp < p.config.min_temp ∨ p.config.max_temp < temp then
        (some p1, some { d1 with error := SensorError.OUT_OF_RANGE }, false)
      else
        let stats2 :=
          if p.config.alert_threshold < temp then
            { stats1 with alert_count := stats1.alert_count + 1 }
          else stats1
        let stats3 :=
          if p.config.critical_threshold < temp then
            { stats2 with critical_count := stats2.critical_count + 1 }
          else stats2
        let err :=
          if p.config.alert_threshold < temp ∨ p.config.critical_threshold < temp then
            SensorError.OUT_OF_RANGE
          else SensorError.NONE
        (some { p1 with stats := stats3 }, some { d1 with error := err }, true)

/-- temperature_sensor_init of temperature_sensor.c.  mallocOk models the
success of the private state allocation; priv is the module level
private_data pointer before the call.  The C code performs no validation
of the configuration fields: the configuration is copied verbatim.  The
binding of the initialize and cleanup slots is not modelled (only the read
slot presence is kept, see the module comment). -/
def temperature_sensor_init (sensor : Option Sensor) (id : Option String)
    (config : Option TemperatureConfig) (mallocOk : Bool)
    (priv : Option TemperatureSensorPrivate) :
    Option Sensor × Option TemperatureSensorPrivate × Bool :=
  match sensor, id, config with
  | none, _, _ => (none, priv, false)
  | some s, none, _ => (some { s with last_error := SensorError.INVALID_PARAM }, priv, false)
  | some s, some _, none => (some { s with last_error := SensorError.INVALID_PARAM }, priv, false)
  | some s, some idStr, some cfg =>
    match sensor_init (some s) SensorType.TEMPERATURE (some idStr) with
    | (s1, false) => (s1, priv, false)
    | (none, true) => (none, priv, false)
    | (some s1, true) =>
      if mallocOk = false then
        (some { s1 with last_error := SensorError.MEMORY }, priv, false)
      else
        let p : TemperatureSensorPrivate :=
          { config := cfg,
            last_reading := { temperature := 0, humidity := 0, dew_point := 0, heat_index := 0 },
            stats := initStats,
            last_sample_time := 0 }
        let s2 := { s1 with read_bound := true }
        let s3 := sensor_set_location (sensor_set_name s2 "Temperature Sensor") "Factory Floor"
        (some s3, some p, true)

/-- Log levels of the LogLevel enumeration in logger.h. -/
inductive LogLevel where
  | DEBUG
  | INFO
  | WARNING
  | ERROR
  | CRITICAL
deriving DecidableEq

/-- The numeric value of a log level (the C enum value); the C code
compares levels with the integer order. -/
def LogLevel.toNat : LogLevel → Nat
  | .DEBUG => 0
  | .INFO => 1
  | .WARNING => 2
  | .ERROR => 3
  | .CRITICAL => 4

/-- The cast (LogLevel)i of logger_string_to_level; the C code only casts
indices of the level string table, all below 5. -/
def levelOfNat : Nat → LogLevel
  | 0 => .DEBUG
  | 1 => .INFO
  | 2 => .WARNING
  | 3 => .ERROR
  | _ => .CRITICAL

/-- The level_strings table of logger.c. -/
def level_strings : List String :=
  ["DEBUG", "INFO", "WARNING", "ERROR", "CRITICAL"]

/-- ASCII lower casing of one character, as strcasecmp folds case. -/
def toLowerAscii (c : Char) : Char :=
  if 'A' ≤ c ∧ c ≤ 'Z' then Char.ofNat (c.toNat + 32) else c

/-- strcasecmp equality: the two strings agree after ASCII case folding. -/
def strcaseEq (a b : String) : Bool :=
  a.data.map toLowerAscii == b.data.map toLowerAscii

/-- logger_level_to_string of logger.c: out of range values map to the
UNKNOWN sentinel, in range values index the table. -/
def logger_level_to_string (level : LogLevel) : String :=
  if 5 ≤ level.toNat then "UNKNOWN"
  else (level_strings.getD level.toNat "UNKNOWN")

/-- logger_string_to_level of logger.c: a NULL pointer maps to INFO, the
first case insensitive table match maps to its index, no match maps to
INFO. -/
def logger_string_to_level (level_str : Option String) : LogLevel :=
  match level_str with
  | none => LogLevel.INFO
  | some s =>
    match (List.range level_strings.length).find? (fun i => strcaseEq s (level_strings.getD i "")) with
    | some i => levelOfNat i
    | none => LogLevel.INFO

/-- The LoggerConfig record of logger.h. -/
structure LoggerConfig where
  log_file : String
  min_level : LogLevel
  log_to_console : Bool
  log_to_file : Bool
  log_timestamp : Bool
  log_sensor_data : Bool
  max_file_size_kb : Nat
  max_files : Nat
deriving DecidableEq

/-- The LoggerPrivate record of logger.c.  log_file_open models whether
the FILE pointer is non NULL.  The on disk log files are modelled by a
separate finite set of indices: index 0 is the base path, index i is the
path with numeric suffix i. -/
structure LoggerPrivate where
  config : LoggerConfig
  log_file_open : Bool
  current_file_size : Nat
  file_count : Nat
deriving DecidableEq

/-- The formatted line of logger_log: optional timestamp prefix, level
name, message, truncated by snprintf to the 512 byte buffer (511
characters plus the terminator). -/
def format_message (cfg : LoggerConfig) (ts : String) (level : LogLevel) (msg : String) : String :=
  if cfg.log_timestamp then
    strncpy_take ("[" ++ ts ++ "] [" ++ logger_level_to_string level ++ "] " ++ msg) 511
  else
    strncpy_take ("[" ++ logger_level_to_string level ++ "] " ++ msg) 511

/-- One iteration of the rotation loop of logger_rotate_log_file at index
i: at i = max_files - 1 the file is removed, otherwise the file (base path
for i = 0) is renamed to suffix i + 1; a rename whose source is absent
fails and changes nothing. -/
def rotate_step (mf : Nat) (fs : Finset Nat) (i : Nat) : Finset Nat :=
  if i = mf - 1 then fs.erase i
  else if i ∈ fs then insert (i + 1) (fs.erase i) else fs

/-- The rotation loop, iterating i = k - 1 down to 0. -/
def rotate_loop (mf : Nat) : Nat → Finset Nat → Finset Nat
  | 0, fs => fs
  | k + 1, fs => rotate_loop mf k (rotate_step mf fs k)

/-- The full rename and removal pass of logger_rotate_log_file: for i from
max_files - 1 down to 0 (no iteration when max_files = 0, matching the C
loop bound). -/
def rotate_files (fs : Finset Nat) (mf : Nat) : Finset Nat :=
  rotate_loop mf mf fs

/-- logger_rotate_log_file of logger.c: close the current file, run the
rename and removal pass, reopen the base path in truncate mode (fopen
success is modelled as always succeeding, the filesystem model has no
failures), reset the size counter, then write the rotation notice through
the logging path.  The nested logger_log call is modelled one level deep:
its gate and writes are reproduced inline and it does not rotate again (in
C a second rotation inside the notice needs
max_file_size_kb * 1024 at most the notice line length).  Results: new
state, new file set, console lines, file lines. -/
def logger_rotate_log_file (st : Option LoggerPrivate) (fs : Finset Nat) (ts : String) :
    Option LoggerPrivate × Finset Nat × List String × List String :=
  match st with
  | none => (st, fs, [], [])
  | some l =>
    if l.log_file_open = false then (st, fs, [], [])
    else
      let fs2 := insert 0 (rotate_files fs l.config.max_files)
      let l1 := { l with log_file_open := true, current_file_size := 0 }
      if LogLevel.INFO.toNat < l.config.min_level.toNat then
        (some l1, fs2, [], [])
      else
        let fm := format_message l.config ts LogLevel.INFO "Log file rotated"
        let console := if l.config.log_to_console then [fm] else []
        if l.config.log_to_file then
          (some { l1 with current_file_size := fm.length + 1 }, fs2, console, [fm])
        else
          (some l1, fs2, console, [])

/-- The result of one logger_log call: the module state, the file set, the
console lines, the file lines, the boolean result and the number of
rotations performed. -/
structure LogResult where
  st : Option LoggerPrivate
  fs : Finset Nat
  console : List String
  file_writes : List String
  ok : Bool
  rotations : Nat
deriving DecidableEq

/-- logger_log of logger.c.  ts is the strftime timestamp string for the
current time.  The no op gate returns false with no output and no state
change; otherwise the line is formatted, printed to the console if
enabled, appended to the file if enabled and open (the byte counter grows
by the line length plus the newline), and a rotation runs exactly when the
grown counter reaches max_file_size_kb * 1024. -/
def logger_log (st : Option LoggerPrivate) (fs : Finset Nat) (msg : Option String)
    (level : LogLevel) (ts : String) : LogResult :=
  match st, msg with
  | none, _ => ⟨st, fs, [], [], false, 0⟩
  | some _, none => ⟨st, fs, [], [], false, 0⟩
  | some l, some m =>
    if level.toNat < l.config.min_level.toNat then ⟨st, fs, [], [], false, 0⟩
    else
      let fm := format_message l.config ts level m
      let console := if l.config.log_to_console then [fm] else []
      if l.config.log_to_file ∧ l.log_file_open then
        let l1 := { l with current_file_size := l.current_file_size + (fm.length + 1) }
        if l.config.max_file_size_kb * 1024 ≤ l1.current_file_size then
          let r := logger_rotate_log_file (some l1) fs ts
          ⟨r.1, r.2.1, console ++ r.2.2.1, fm :: r.2.2.2, true, 1⟩
        else ⟨some l1, fs, console, [fm], true, 0⟩
      else ⟨some l, fs, console, [], true, 0⟩

/-- Concrete temperature configuration used by the concrete evaluation
theorems: range 0 to 100, alert threshold 40, critical threshold 60, no
calibration offset, one second sampling rate, all feature flags off. -/
def cfg0 : TemperatureConfig :=
  { min_temp := 0, max_temp := 100, alert_threshold := 40, critical_threshold := 60,
    calibration_offset := 0, sampling_rate_ms := 1000,
    enable_humidity := false, enable_dew_point := false, enable_heat_index := false }

/-- Concrete private state: configuration cfg0, zero last reading, seeded
statistics, last sample at time 0. -/
def p0 : TemperatureSensorPrivate :=
  { config := cfg0,
    last_reading := { temperature := 0, humidity := 0, dew_point := 0, heat_index := 0 },
    stats := initStats,
    last_sample_time := 0 }

/-- Concrete sensor record. -/
def s0 : Sensor :=
  { type := SensorType.TEMPERATURE, id := "T1", name := "", location := "",
    read_bound := true, last_error := SensorError.NONE, sample_count := 0, error_count := 0 }

/-- Concrete data record passed to the read calls. -/
def d0 : SensorData :=
  { type := SensorType.TEMPERATURE, value := 0, timestamp := 0, is_valid := false,
    error := SensorError.NONE, unit := "" }

/-- update_stats never touches the alert counter. -/
lemma update_stats_alert_count (s : TemperatureStats) (v : ℚ) :
    (update_stats s v).alert_count = s.alert_count := by
  simp only [update_stats]
  split_ifs <;> rfl

/-- update_stats never touches the critical counter. -/
lemma update_stats_critical_count (s : TemperatureStats) (v : ℚ) :
    (update_stats s v).critical_count = s.critical_count := by
  simp only [update_stats]
  split_ifs <;> rfl

/-- The value of update_stats on an explicit statistics record. -/
lemma update_stats_eq (m M A sd : ℚ) (n a c : Nat) (v : ℚ) :
    update_stats ⟨m, M, A, sd, n, a, c⟩ v =
      ⟨min m v, max M v, (A * (n : ℚ) + v) / ((n : ℚ) + 1), sd, n + 1, a, c⟩ := by
  simp only [update_stats]
  split_ifs with h1 h2 h3
  · rw [min_eq_right h1.le, max_eq_right h2.le]
  · rw [min_eq_right h1.le, max_eq_left (not_lt.mp h2)]
  · rw [min_eq_left (not_lt.mp h1), max_eq_right h3.le]
  · rw [min_eq_left (not_lt.mp h1), max_eq_left (not_lt.mp h3)]

/-- A fresh (non debounced) read whose resulting value falls outside the
configured range: the statistics are extended, the time stamp advances,
the error is OUT_OF_RANGE, the validity flag set at sampling time is kept,
and the call fails. -/
lemma temperature_read_fresh_out (p : TemperatureSensorPrivate) (d : SensorData)
    (now : Nat) (sample humid : ℚ)
    (hfresh : ¬ elapsed32 now p.last_sample_time < p.config.sampling_rate_ms)
    (hout : sample + p.config.calibration_offset < p.config.min_temp ∨
      p.config.max_temp < sample + p.config.calibration_offset) :
    temperature_read (some p) (some d) now sample humid =
      (some { p with
          last_reading :=
            { temperature := sample + p.config.calibration_offset,
              humidity := if p.config.enable_humidity then humid else 0,
              dew_point :=
                if p.config.enable_dew_point ∧ 0 < (if p.config.enable_humidity then humid else 0) then
                  calculate_dew_point (sample + p.config.calibration_offset)
                    (if p.config.enable_humidity then humid else 0)
                else p.last_reading.dew_point,
              heat_index :=
                if p.config.enable_heat_index ∧ 0 < (if p.config.enable_humidity then humid else 0) then
                  calculate_heat_index (sample + p.config.calibration_offset)
                    (if p.config.enable_humidity then humid else 0)
                else p.last_reading.heat_index },
          stats := update_stats p.stats (sample + p.config.calibration_offset),
          last_sample_time := now % 2 ^ 32 },
       some { d with
          value := sample + p.config.calibration_offset,
          is_valid := true,
          error := SensorError.OUT_OF_RANGE },
       false) := by
  simp only [temperature_read, if_neg hfresh, if_pos hout]

/-- A fresh (non debounced) read whose resulting value lies inside the
configured range: the statistics are extended and the two threshold tiers
fire independently by their strict comparisons; the call succeeds. -/
lemma temperature_read_fresh_in (p : TemperatureSensorPrivate) (d : SensorData)
    (now : Nat) (sample humid : ℚ)
    (hfresh : ¬ elapsed32 now p.last_sample_time < p.config.sampling_rate_ms)
    (hin : ¬ (sample + p.config.calibration_offset < p.config.min_temp ∨
      p.config.max_temp < sample + p.config.calibration_offset)) :
    temperature_read (some p) (some d) now sample humid =
      (some { p with
          last_reading :=
            { temperature := sample + p.config.calibration_offset,
              humidity := if p.config.enable_humidity then humid else 0,
              dew_point :=
                if p.config.enable_dew_point ∧ 0 < (if p.config.enable_humidity then humid else 0) then
                  calculate_dew_point (sample + p.config.calibration_offset)
                    (if p.config.enable_humidity then humid else 0)
                else p.last_reading.dew_point,
              heat_index :=
                if p.config.enable_heat_index ∧ 0 < (if p.config.enable_humidity then humid else 0) then
                  calculate_heat_index (sample + p.config.calibration_offset)
                    (if p.config.enable_humidity then humid else 0)
                else p.last_reading.heat_index },
          stats :=
            (let stats1 := update_stats p.stats (sample + p.config.calibration_offset)
             let stats2 :=
               if p.config.alert_threshold < sample + p.config.calibration_offset then
                 { stats1 with alert_count := stats1.alert_count + 1 }
               else stats1
             if p.config.critical_threshold < sample + p.config.calibration_offset then
               { stats2 with critical_count := stats2.critical_count + 1 }
             else stats2),
          last_sample_time := now % 2 ^ 32 },
       some { d with
          value := sample + p.config.calibration_offset,
          is_valid := true,
          error :=
            if p.config.alert_threshold < sample + p.config.calibration_offset ∨
               p.config.critical_threshold < sample + p.config.calibration_offset then
              SensorError.OUT_OF_RANGE
            else SensorError.NONE },
       true) := by
  simp only [temperature_read, if_neg hfresh, if_neg hin]

/-- C1 counterexample: with non NULL sensor, id and configuration, a
configuration that violates both invariants (min_temp = 10 is not below
max_temp = 5, and sampling_rate_ms = 0) still constructs successfully and
still allocates the private state, with the violating fields stored
unchanged.  This refutes the claim that such a construction fails with no
private state allocated. -/
theorem temperature_sensor_init_invalid_config_cex :
    ¬ ((10 : ℚ) < (5 : ℚ)) ∧
    (temperature_sensor_init (some s0) (some "T1")
      (some { cfg0 with min_temp := 10, max_temp := 5, sampling_rate_ms := 0 })
      true none).2.2 = true ∧
    ((temperature_sensor_init (some s0) (some "T1")
      (some { cfg0 with min_temp := 10, max_temp := 5, sampling_rate_ms := 0 })
      true none).2.1).map (fun p => (p.config.min_temp, p.config.max_temp, p.config.sampling_rate_ms)) =
      some (10, 5, 0) := by
  with_unfolding_all decide

/-- C1 amended: temperature_sensor_init performs no validation of the
configuration invariants.  With non NULL sensor, id and configuration and
a successful allocation, construction succeeds for every configuration,
storing the configuration verbatim (no clamping); it fails exactly for
NULL arguments (INVALID_PARAM) or allocation failure (MEMORY). -/
theorem temperature_sensor_init_no_validation
    (s : Sensor) (idStr : String) (cfg : TemperatureConfig)
    (prev : Option TemperatureSensorPrivate) :
    (temperature_sensor_init (some s) (some idStr) (some cfg) true prev).2.2 = true ∧
    (temperature_sensor_init (some s) (some idStr) (some cfg) true prev).2.1 =
      some { config := cfg,
             last_reading := { temperature := 0, humidity := 0, dew_point := 0, heat_index := 0 },
             stats := initStats,
             last_sample_time := 0 } ∧
    temperature_sensor_init none (some idStr) (some cfg) true prev = (none, prev, false) ∧
    temperature_sensor_init (some s) none (some cfg) true prev =
      (some { s with last_error := SensorError.INVALID_PARAM }, prev, false) ∧
    temperature_sensor_init (some s) (some idStr) none true prev =
      (some { s with last_error := SensorError.INVALID_PARAM }, prev, false) ∧
    (temperature_sensor_init (some s) (some idStr) (some cfg) false prev).2.2 = false := by
  exact ⟨rfl, rfl, rfl, rfl, rfl, rfl⟩

/-- C2 counterexample: a single fresh sample whose value 150 exceeds
max_temp, alert_threshold and critical_threshold at once.  The read
returns failure with OUT_OF_RANGE, but increments neither alert_count nor
critical_count and does not mark the reading invalid: the three checks
cannot all fire for one sample because the range check returns early. -/
theorem temperature_read_triple_fire_cex :
    (p0.config.max_temp < 150 ∧ p0.config.alert_threshold < 150 ∧
     p0.config.critical_threshold < 150 ∧
     ¬ elapsed32 2000000 p0.last_sample_time < p0.config.sampling_rate_ms) ∧
    ((temperature_read (some p0) (some d0) 2000000 150 0).1).map
      (fun p => (p.stats.alert_count, p.stats.critical_count)) = some (0, 0) ∧
    ((temperature_read (some p0) (some d0) 2000000 150 0).2.1).map
      (fun d => (d.is_valid, d.error)) = some (true, SensorError.OUT_OF_RANGE) ∧
    (temperature_read (some p0) (some d0) 2000000 150 0).2.2 = false := by
  with_unfolding_all decide

/-- C2 amended: the alert and the critical checks are independent tiers
that can both fire for one fresh in range sample (a value strictly above
both thresholds increments both counters in a single call, which reports
OUT_OF_RANGE and still succeeds), but the range check is not independent
of them: a fresh sample outside the range returns failure before the tier
checks, incrementing neither counter. -/
theorem temperature_read_tier_layering
    (p : TemperatureSensorPrivate) (d : SensorData) (now : Nat) (sample humid : ℚ)
    (hfresh : ¬ elapsed32 now p.last_sample_time < p.config.sampling_rate_ms) :
    ((p.config.min_temp ≤ sample + p.config.calibration_offset ∧
      sample + p.config.calibration_offset ≤ p.config.max_temp ∧
      p.config.alert_threshold < sample + p.config.calibration_offset ∧
      p.config.critical_threshold < sample + p.config.calibration_offset) →
      ((temperature_read (some p) (some d) now sample humid).1).map
        (fun q => (q.stats.alert_count, q.stats.critical_count)) =
        some (p.stats.alert_count + 1, p.stats.critical_count + 1) ∧
      ((temperature_read (some p) (some d) now sample humid).2.1).map
        (fun r => r.error) = some SensorError.OUT_OF_RANGE ∧
      (temperature_read (some p) (some d) now sample humid).2.2 = true) ∧
    ((sample + p.config.calibration_offset < p.config.min_temp ∨
      p.config.max_temp < sample + p.config.calibration_offset) →
      ((temperature_read (some p) (some d) now sample humid).1).map
        (fun q => (q.stats.alert_count, q.stats.critical_count)) =
        some (p.stats.alert_count, p.stats.critical_count) ∧
      (temperature_read (some p) (some d) now sample humid).2.2 = false) := by
  constructor
  · rintro ⟨hmin, hmax, halert, hcrit⟩
    rw [temperature_read_fresh_in p d now sample humid hfresh (by push_neg; exact ⟨hmin, hmax⟩)]
    simp only [Option.map_some, if_pos halert, if_pos hcrit, if_pos (Or.inl halert)]
    refine ⟨?_, ?_, ?_⟩ <;> simp [update_stats_alert_count, update_stats_critical_count]
  · intro hout
    rw [temperature_read_fresh_out p d now sample humid hfresh hout]
    simp [update_stats_alert_count, update_stats_critical_count]

/-- C3 counterexample: a fresh sample whose value 200 lies outside the
range is reported with OUT_OF_RANGE and failure, yet its is_valid flag is
true, refuting the claim that the reading is marked invalid. -/
theorem temperature_read_out_of_range_valid_flag_cex :
    (p0.config.max_temp < 200 ∧
     ¬ elapsed32 2000000 p0.last_sample_time < p0.config.sampling_rate_ms) ∧
    ((temperature_read (some p0) (some d0) 2000000 200 0).2.1).map
      (fun r => (r.is_valid, r.error)) = some (true, SensorError.OUT_OF_RANGE) ∧
    (temperature_read (some p0) (some d0) 2000000 200 0).2.2 = false := by
  with_unfolding_all decide

/-- C3 amended: for every fresh read whose sampled value lies outside the
closed range, the read reports OUT_OF_RANGE in the output record and
returns failure, but the output record keeps is_valid = true (the flag is
set at sampling time and never cleared by the range check). -/
theorem temperature_read_out_of_range_spec
    (p : TemperatureSensorPrivate) (d : SensorData) (now : Nat) (sample humid : ℚ)
    (hfresh : ¬ elapsed32 now p.last_sample_time < p.config.sampling_rate_ms)
    (hout : sample + p.config.calibration_offset < p.config.min_temp ∨
      p.config.max_temp < sample + p.config.calibration_offset) :
    (temperature_read (some p) (some d) now sample humid).2.1 =
      some { d with
          value := sample + p.config.calibration_offset,
          is_valid := true,
          error := SensorError.OUT_OF_RANGE } ∧
    (temperature_read (some p) (some d) now sample humid).2.2 = false := by
  rw [temperature_read_fresh_out p d now sample humid hfresh hout]
  exact ⟨rfl, rfl⟩

/-- C4 counterexample: a fresh in range sample whose value 60 equals the
critical threshold (hence is at least the critical threshold) increments
alert_count but not critical_count, refuting the claim that a value
greater than or equal to the critical threshold increments both. -/
theorem temperature_read_critical_boundary_cex :
    (p0.config.critical_threshold = 60 ∧ p0.config.alert_threshold < 60 ∧
     p0.config.min_temp ≤ 60 ∧ (60 : ℚ) ≤ p0.config.max_temp ∧
     ¬ elapsed32 2000000 p0.last_sample_time < p0.config.sampling_rate_ms) ∧
    ((temperature_read (some p0) (some d0) 2000000 60 0).1).map
      (fun q => (q.stats.alert_count, q.stats.critical_count)) = some (1, 0) ∧
    (temperature_read (some p0) (some d0) 2000000 60 0).2.2 = true := by
  with_unfolding_all decide

/-- C4 amended: for fresh in range samples both tiers compare strictly.
A value strictly above alert_threshold and at most critical_threshold
increments alert_count only and the call succeeds; a value strictly above
both thresholds increments both counters.  A value exactly equal to
critical_threshold therefore never increments critical_count. -/
theorem temperature_read_threshold_counts
    (p : TemperatureSensorPrivate) (d : SensorData) (now : Nat) (sample humid : ℚ)
    (hfresh : ¬ elapsed32 now p.last_sample_time < p.config.sampling_rate_ms)
    (hmin : p.config.min_temp ≤ sample + p.config.calibration_offset)
    (hmax : sample + p.config.calibration_offset ≤ p.config.max_temp) :
    ((p.config.alert_threshold < sample + p.config.calibration_offset ∧
      sample + p.config.calibration_offset ≤ p.config.critical_threshold) →
      ((temperature_read (some p) (some d) now sample humid).1).map
        (fun q => (q.stats.alert_count, q.stats.critical_count)) =
        some (p.stats.alert_count + 1, p.stats.critical_count) ∧
      (temperature_read (some p) (some d) now sample humid).2.2 = true) ∧
    ((p.config.alert_threshold < sample + p.config.calibration_offset ∧
      p.config.critical_threshold < sample + p.config.calibration_offset) →
      ((temperature_read (some p) (some d) now sample humid).1).map
        (fun q => (q.stats.alert_count, q.stats.critical_count)) =
        some (p.stats.alert_count + 1, p.stats.critical_count + 1)) := by
  constructor
  · rintro ⟨halert, hcrit⟩
    rw [temperature_read_fresh_in p d now sample humid hfresh (by push_neg; exact ⟨hmin, hmax⟩)]
    simp only [Option.map_some, if_pos halert, if_neg (not_lt.mpr hcrit)]
    refine ⟨?_, ?_⟩ <;> simp [update_stats_alert_count, update_stats_critical_count]
  · rintro ⟨halert, hcrit⟩
    rw [temperature_read_fresh_in p d now sample humid hfresh (by push_neg; exact ⟨hmin, hmax⟩)]
    simp only [Option.map_some, if_pos halert, if_pos hcrit]
    simp [update_stats_alert_count, update_stats_critical_count]

/-- Witness for the amended C2 theorem at the concrete fresh in range
sample 70, above both thresholds of cfg0. -/
theorem temperature_read_tier_layering_witness :
    (¬ elapsed32 2000000 p0.last_sample_time < p0.config.sampling_rate_ms ∧
     p0.config.min_temp ≤ 70 + p0.config.calibration_offset ∧
     70 + p0.config.calibration_offset ≤ p0.config.max_temp ∧
     p0.config.alert_threshold < 70 + p0.config.calibration_offset ∧
     p0.config.critical_threshold < 70 + p0.config.calibration_offset) ∧
    (((temperature_read (some p0) (some d0) 2000000 70 0).1).map
      (fun q => (q.stats.alert_count, q.stats.critical_count)) =
      some (p0.stats.alert_count + 1, p0.stats.critical_count + 1) ∧
    ((temperature_read (some p0) (some d0) 2000000 70 0).2.1).map
      (fun r => r.error) = some SensorError.OUT_OF_RANGE ∧
    (temperature_read (some p0) (some d0) 2000000 70 0).2.2 = true) :=
  ⟨by with_unfolding_all decide,
   (temperature_read_tier_layering p0 d0 2000000 70 0
     (by with_unfolding_all decide)).1 (by with_unfolding_all decide)⟩

/-- Witness for the amended C3 theorem at the concrete fresh sample 200,
above the maximum of cfg0. -/
theorem temperature_read_out_of_range_spec_witness :
    (¬ elapsed32 2000000 p0.last_sample_time < p0.config.sampling_rate_ms ∧
     (200 + p0.config.calibration_offset < p0.config.min_temp ∨
      p0.config.max_temp < 200 + p0.config.calibration_offset)) ∧
    ((temperature_read (some p0) (some d0) 2000000 200 0).2.1 =
      some { d0 with
          value := 200 + p0.config.calibration_offset,
          is_valid := true,
          error := SensorError.OUT_OF_RANGE } ∧
    (temperature_read (some p0) (some d0) 2000000 200 0).2.2 = false) :=
  ⟨by with_unfolding_all decide,
   temperature_read_out_of_range_spec p0 d0 2000000 200 0
     (by with_unfolding_all decide) (by with_unfolding_all decide)⟩

/-- Witness for the amended C4 theorem at the concrete fresh in range
sample 50, above alert_threshold 40 and at most critical_threshold 60. -/
theorem temperature_read_threshold_counts_witness :
    (¬ elapsed32 2000000 p0.last_sample_time < p0.config.sampling_rate_ms ∧
     p0.config.min_temp ≤ 50 + p0.config.calibration_offset ∧
     50 + p0.config.calibration_offset ≤ p0.config.max_temp ∧
     p0.config.alert_threshold < 50 + p0.config.calibration_offset ∧
     50 + p0.config.calibration_offset ≤ p0.config.critical_threshold) ∧
    (((temperature_read (some p0) (some d0) 2000000 50 0).1).map
      (fun q => (q.stats.alert_count, q.stats.critical_count)) =
      some (p0.stats.alert_count + 1, p0.stats.critical_count) ∧
    (temperature_read (some p0) (some d0) 2000000 50 0).2.2 = true) :=
  ⟨by with_unfolding_all decide,
   (temperature_read_threshold_counts p0 d0 2000000 50 0
     (by with_unfolding_all decide) (by with_unfolding_all decide)
     (by with_unfolding_all decide)).1 (by with_unfolding_all decide)⟩

/-- Every read that returns a state and a record leaves the cached
temperature equal to the value it wrote into the record: a debounced read
returns the unchanged cache, a fresh read writes the new sample into both
the cache and the record. -/
lemma temperature_read_cache (p q : TemperatureSensorPrivate) (d r : SensorData) (b : Bool)
    (now : Nat) (sample humid : ℚ)
    (h : temperature_read (some p) (some d) now sample humid = (some q, some r, b)) :
    q.last_reading.temperature = r.value := by
  simp only [temperature_read] at h
  split at h
  · simp only [Prod.mk.injEq, Option.some.injEq] at h
    obtain ⟨hq, hr, -⟩ := h
    subst hq
    subst hr
    rfl
  · split at h
    · simp only [Prod.mk.injEq, Option.some.injEq] at h
      obtain ⟨hq, hr, -⟩ := h
      subst hq
      subst hr
      rfl
    · simp only [Prod.mk.injEq, Option.some.injEq] at h
      obtain ⟨hq, hr, -⟩ := h
      subst hq
      subst hr
      rfl

/-- C5: two consecutive reads on the same sensor where the second is
within the debounce window.  Whatever the first read did (fresh or itself
debounced), the second read returns the value the first read reported,
with is_valid true and error NONE, succeeds, and leaves the whole private
state, in particular every statistics field and last_sample_time,
unchanged. -/
theorem temperature_read_debounce_frame
    (p q : TemperatureSensorPrivate) (d d2 r : SensorData) (b : Bool)
    (t1 t2 : Nat) (sample humid sample2 humid2 : ℚ)
    (h1 : temperature_read (some p) (some d) t1 sample humid = (some q, some r, b))
    (h2 : elapsed32 t2 q.last_sample_time < q.config.sampling_rate_ms) :
    temperature_read (some q) (some d2) t2 sample2 humid2 =
      (some q,
       some { d2 with value := r.value, is_valid := true, error := SensorError.NONE },
       true) := by
  have hc := temperature_read_cache p q d r b t1 sample humid h1
  simp only [temperature_read, if_pos h2, hc]

/-- The private state after one fresh read of sample 30 on p0. -/
def q0 : TemperatureSensorPrivate :=
  { config := cfg0,
    last_reading := { temperature := 30, humidity := 0, dew_point := 0, heat_index := 0 },
    stats := { min_value := 30, max_value := 30, avg_value := 30, std_deviation := 0,
               sample_count := 1, alert_count := 0, critical_count := 0 },
    last_sample_time := 2000000 }

/-- The record written by that fresh read of sample 30. -/
def r0 : SensorData :=
  { d0 with value := 30, is_valid := true, error := SensorError.NONE }

/-- Witness for the C5 theorem: a fresh read of sample 30 at time
2000000, followed 500 milliseconds later (inside the 1000 millisecond
debounce window) by a second read. -/
theorem temperature_read_debounce_frame_witness :
    (temperature_read (some p0) (some d0) 2000000 30 0 = (some q0, some r0, true) ∧
     elapsed32 2000500 q0.last_sample_time < q0.config.sampling_rate_ms) ∧
    temperature_read (some q0) (some d0) 2000500 80 0 =
      (some q0,
       some { d0 with value := r0.value, is_valid := true, error := SensorError.NONE },
       true) :=
  ⟨⟨by norm_num [temperature_read, elapsed32, p0, q0, r0, d0, cfg0, initStats, update_stats,
      FLT_MAX],
    by norm_num [elapsed32, q0, cfg0]⟩,
   temperature_read_debounce_frame p0 q0 d0 d0 r0 true 2000000 2000500 30 0 80 0
     (by norm_num [temperature_read, elapsed32, p0, q0, r0, d0, cfg0, initStats, update_stats,
        FLT_MAX])
     (by norm_num [elapsed32, q0, cfg0])⟩

/-- Folding update_stats from any record with a non zero sample count
extends min and max pointwise and keeps the running mean equal to the
count weighted mean of the previous average and the new samples. -/
lemma update_stats_foldl (vs : List ℚ) (m M A sd : ℚ) (n a c : Nat) (hn : n ≠ 0) :
    vs.foldl update_stats ⟨m, M, A, sd, n, a, c⟩ =
      ⟨vs.foldl min m, vs.foldl max M,
       (A * (n : ℚ) + vs.sum) / ((n : ℚ) + (vs.length : ℚ)), sd,
       n + vs.length, a, c⟩ := by
  induction vs generalizing m M A n with
  | nil =>
    have hQ : ((n : ℚ)) ≠ 0 := Nat.cast_ne_zero.mpr hn
    simp [mul_div_cancel_right₀ A hQ]
  | cons v rest ih =>
    rw [List.foldl_cons, update_stats_eq m M A sd n a c v,
      ih (min m v) (max M v) ((A * (n : ℚ) + v) / ((n : ℚ) + 1)) (n + 1) (Nat.succ_ne_zero n)]
    simp only [List.foldl_cons, List.sum_cons, List.length_cons, TemperatureStats.mk.injEq,
      true_and, and_true]
    refine ⟨?_, by omega⟩
    have hne : ((n : ℚ) + 1) ≠ 0 := by positivity
    push_cast
    rw [div_mul_cancel₀ _ hne]
    ring

/-- C6: starting from the seeded statistics, the first sample v replaces
both sentinel extrema, and after the further samples of rest the
statistics hold the exact minimum, the exact maximum, the exact
arithmetic mean produced by the incremental average update, and the
sample count equal to the number of samples. -/
theorem temperature_stats_running_mean (v : ℚ) (rest : List ℚ)
    (h1 : -FLT_MAX ≤ v) (h2 : v ≤ FLT_MAX) :
    update_stats initStats v = ⟨v, v, v, 0, 1, 0, 0⟩ ∧
    (v :: rest).foldl update_stats initStats =
      ⟨rest.foldl min v, rest.foldl max v,
       (v + rest.sum) / (1 + (rest.length : ℚ)), 0, 1 + rest.length, 0, 0⟩ := by
  have hfirst : update_stats initStats v = ⟨v, v, v, 0, 1, 0, 0⟩ := by
    rw [show initStats = ⟨FLT_MAX, -FLT_MAX, 0, 0, 0, 0, 0⟩ from rfl,
      update_stats_eq, min_eq_right h2, max_eq_right h1]
    norm_num
  refine ⟨hfirst, ?_⟩
  rw [List.foldl_cons, hfirst, update_stats_foldl rest v v v 0 1 0 0 one_ne_zero]
  norm_num

/-- Witness for the C6 theorem on the concrete sample run 5, 3, 7: the
statistics end with minimum 3, maximum 7, mean 5 and count 3. -/
theorem temperature_stats_running_mean_witness :
    (-FLT_MAX ≤ (5 : ℚ) ∧ (5 : ℚ) ≤ FLT_MAX) ∧
    [(5 : ℚ), 3, 7].foldl update_stats initStats = ⟨3, 7, 5, 0, 3, 0, 0⟩ :=
  ⟨⟨by norm_num [FLT_MAX], by norm_num [FLT_MAX]⟩,
   ((temperature_stats_running_mean 5 [3, 7]
       (by norm_num [FLT_MAX]) (by norm_num [FLT_MAX])).2).trans
     (by norm_num [min_def, max_def])⟩

/-- C7: the sensor_read_data contract.  A missing sensor, record or bound
read implementation fails with INVALID_PARAM (recorded on the sensor when
it is present).  Otherwise the call first stamps the record (type,
timestamp, type derived default unit, cleared is_valid) and increments
sample_count whether the bound read succeeds or fails; on failure it also
copies the reported error of the returned record into last_error,
increments error_count and returns false; on success it clears last_error
and returns true. -/
theorem sensor_read_data_contract (s : Sensor) (d : SensorData) (now : Nat)
    (impl : SensorData → SensorData × Bool) :
    sensor_read_data none (some d) now impl = (none, some d, false) ∧
    sensor_read_data (some s) none now impl =
      (some { s with last_error := SensorError.INVALID_PARAM }, none, false) ∧
    (s.read_bound = false →
      sensor_read_data (some s) (some d) now impl =
        (some { s with last_error := SensorError.INVALID_PARAM }, some d, false)) ∧
    (s.read_bound = true →
      sensor_read_data (some s) (some d) now impl =
        (some { s with
            sample_count := s.sample_count + 1,
            last_error :=
              if (impl (stamp_record s d now)).2 then SensorError.NONE
              else (impl (stamp_record s d now)).1.error,
            error_count :=
              if (impl (stamp_record s d now)).2 then s.error_count
              else s.error_count + 1 },
         some (impl (stamp_record s d now)).1,
         (impl (stamp_record s d now)).2)) := by
  refine ⟨rfl, rfl, fun h => ?_, fun h => ?_⟩
  · simp [sensor_read_data, h]
  · simp only [sensor_read_data, h]
    rcases himpl : (impl (stamp_record s d now)).2 <;>
      simp [himpl]

/-- The concrete bound read implementation used by the C7 witness. -/
def impl0 : SensorData → SensorData × Bool :=
  fun d => ({ d with value := 25, is_valid := true }, true)

/-- Witness for the C7 theorem: a successful bound read on the concrete
sensor s0 stamps the record, increments sample_count and clears the error
state. -/
theorem sensor_read_data_contract_witness :
    s0.read_bound = true ∧
    sensor_read_data (some s0) (some d0) 3 impl0 =
      (some { s0 with
          sample_count := s0.sample_count + 1,
          last_error :=
            if (impl0 (stamp_record s0 d0 3)).2 then SensorError.NONE
            else (impl0 (stamp_record s0 d0 3)).1.error,
          error_count :=
            if (impl0 (stamp_record s0 d0 3)).2 then s0.error_count
            else s0.error_count + 1 },
       some (impl0 (stamp_record s0 d0 3)).1,
       (impl0 (stamp_record s0 d0 3)).2) :=
  ⟨rfl, (sensor_read_data_contract s0 d0 3 impl0).2.2.2 rfl⟩

/-- Whenever the level passes the configured minimum and the state and
message are present, logger_log succeeds. -/
lemma logger_log_ok_of_ge (l : LoggerPrivate) (fs : Finset Nat) (m : String)
    (level : LogLevel) (ts : String)
    (h : ¬ level.toNat < l.config.min_level.toNat) :
    (logger_log (some l) fs (some m) level ts).ok = true := by
  simp only [logger_log, if_neg h]
  split_ifs <;> rfl

/-- C8: logger_log returns false exactly when the instance is missing,
the message is missing, or the level is below the configured minimum; in
every such case it produces no console output, no file output, no file
system change and no state change; in particular a DEBUG message on a
logger whose minimum level is INFO returns false. -/
theorem logger_log_gating (st : Option LoggerPrivate) (fs : Finset Nat)
    (msg : Option String) (level : LogLevel) (ts : String) :
    ((logger_log st fs msg level ts).ok = false ↔
      st = none ∨ msg = none ∨
      ∃ l, st = some l ∧ level.toNat < l.config.min_level.toNat) ∧
    ((logger_log st fs msg level ts).ok = false →
      logger_log st fs msg level ts = ⟨st, fs, [], [], false, 0⟩) ∧
    (∀ l : LoggerPrivate, l.config.min_level = LogLevel.INFO →
      (logger_log (some l) fs (some "x") LogLevel.DEBUG ts).ok = false) := by
  refine ⟨?_, ?_, ?_⟩
  · match st, msg with
    | none, _ => simp [logger_log]
    | some l, none => simp [logger_log]
    | some l, some m =>
      by_cases hlt : level.toNat < l.config.min_level.toNat
      · simp [logger_log, hlt]
      · simp [logger_log_ok_of_ge l fs m level ts hlt, hlt]
  · match st, msg with
    | none, _ => intro _; rfl
    | some l, none => intro _; rfl
    | some l, some m =>
      intro hok
      by_cases hlt : level.toNat < l.config.min_level.toNat
      · simp [logger_log, hlt]
      · rw [logger_log_ok_of_ge l fs m level ts hlt] at hok
        exact absurd hok (by simp)
  · intro l hl
    simp [logger_log, hl, LogLevel.toNat]

/-- The concrete logger state used by the logger witnesses: default style
configuration with minimum level INFO, both sinks enabled, a 1024 KB
rotation threshold and 5 retained files; the file is open and empty. -/
def l0 : LoggerPrivate :=
  { config :=
      { log_file := "logs/edgetrack.log",
        min_level := LogLevel.INFO,
        log_to_console := true,
        log_to_file := true,
        log_timestamp := true,
        log_sensor_data := true,
        max_file_size_kb := 1024,
        max_files := 5 },
    log_file_open := true,
    current_file_size := 0,
    file_count := 0 }

/-- Witness for the C8 theorem: a DEBUG message on the concrete logger
state l0 (minimum level INFO) returns false. -/
theorem logger_log_gating_witness :
    l0.config.min_level = LogLevel.INFO ∧
    (logger_log (some l0) ∅ (some "x") LogLevel.DEBUG "t").ok = false :=
  ⟨rfl, (logger_log_gating (some l0) ∅ (some "x") LogLevel.DEBUG "t").2.2 l0 rfl⟩

/-- One rotation step keeps every file index below max_files when the
step index is below max_files. -/
lemma rotate_step_mem_lt (mf i : Nat) (fs : Finset Nat) (hi : i < mf)
    (hfs : ∀ j ∈ fs, j < mf) : ∀ j ∈ rotate_step mf fs i, j < mf := by
  intro j hj
  simp only [rotate_step] at hj
  split_ifs at hj with h1 h2
  · exact hfs j (Finset.mem_of_mem_erase hj)
  · rcases Finset.mem_insert.mp hj with rfl | hj'
    · omega
    · exact hfs j (Finset.mem_of_mem_erase hj')
  · exact hfs j hj

/-- The rotation loop keeps every file index below max_files. -/
lemma rotate_loop_mem_lt (mf : Nat) (k : Nat) (hk : k ≤ mf) :
    ∀ fs : Finset Nat, (∀ j ∈ fs, j < mf) → ∀ j ∈ rotate_loop mf k fs, j < mf := by
  induction k with
  | zero => exact fun fs hfs j hj => hfs j hj
  | succ k ih =>
    intro fs hfs j hj
    exact ih (Nat.le_of_succ_le hk) _
      (rotate_step_mem_lt mf k fs (by omega) hfs) j hj

/-- The full rename and removal pass keeps every file index below
max_files. -/
lemma rotate_files_mem_lt (fs : Finset Nat) (mf : Nat)
    (hfs : ∀ j ∈ fs, j < mf) : ∀ j ∈ rotate_files fs mf, j < mf :=
  rotate_loop_mem_lt mf mf le_rfl fs hfs

/-- After a rotation (rename pass plus the reopened base file) at most
max_files + 1 log files exist. -/
lemma rotated_card_le (fs : Finset Nat) (mf : Nat)
    (hfs : ∀ j ∈ fs, j < mf) :
    (insert 0 (rotate_files fs mf)).card ≤ mf + 1 := by
  have hsub : rotate_files fs mf ⊆ Finset.range mf := fun j hj =>
    Finset.mem_range.mpr (rotate_files_mem_lt fs mf hfs j hj)
  calc (insert 0 (rotate_files fs mf)).card
      ≤ (rotate_files fs mf).card + 1 := Finset.card_insert_le _ _
    _ ≤ mf + 1 :=
        Nat.add_le_add_right
          (le_trans (Finset.card_le_card hsub) (by simp)) 1

/-- The file set produced by a rotation on an open logger is the rename
pass result together with the reopened base file. -/
lemma logger_rotate_fs (l : LoggerPrivate) (fs : Finset Nat) (ts : String)
    (hopen : l.log_file_open = true) :
    (logger_rotate_log_file (some l) fs ts).2.1 =
      insert 0 (rotate_files fs l.config.max_files) := by
  simp only [logger_rotate_log_file]
  rw [if_neg (by simp [hopen] : ¬ l.log_file_open = false)]
  split_ifs <;> rfl

/-- C9: when a line whose write pushes the cumulative byte counter to at
least max_file_size_kb * 1024 is logged on an open file logger, exactly
one rotation runs; the resulting state and file writes are those of the
rotation applied to the state after the completed write, with the logged
line preceding the rotation notice in the file write sequence; the file
set becomes the rename pass result (the index max_files - 1 file removed,
every other index i renamed to i + 1, base path for index 0) plus the
reopened base file, and when the previous file indices were all below
max_files the total number of log files stays at most max_files + 1.  The
hypothesis on the notice line records the condition under which the C
code performs no further nested rotation. -/
theorem logger_rotation_spec (l : LoggerPrivate) (fs : Finset Nat) (m ts : String)
    (level : LogLevel)
    (hlvl : ¬ level.toNat < l.config.min_level.toNat)
    (hfile : l.config.log_to_file = true)
    (hopen : l.log_file_open = true)
    (hsize : l.config.max_file_size_kb * 1024 ≤
      l.current_file_size + ((format_message l.config ts level m).length + 1))
    (hnotice : (format_message l.config ts LogLevel.INFO "Log file rotated").length + 1 <
      l.config.max_file_size_kb * 1024) :
    (logger_log (some l) fs (some m) level ts).rotations = 1 ∧
    (logger_log (some l) fs (some m) level ts).fs =
      insert 0 (rotate_files fs l.config.max_files) ∧
    0 ∈ (logger_log (some l) fs (some m) level ts).fs ∧
    (logger_log (some l) fs (some m) level ts).st =
      (logger_rotate_log_file
        (some { l with current_file_size :=
            l.current_file_size + ((format_message l.config ts level m).length + 1) })
        fs ts).1 ∧
    (logger_log (some l) fs (some m) level ts).file_writes =
      format_message l.config ts level m ::
        (logger_rotate_log_file
          (some { l with current_file_size :=
              l.current_file_size + ((format_message l.config ts level m).length + 1) })
          fs ts).2.2.2 ∧
    ((∀ j ∈ fs, j < l.config.max_files) →
      (logger_log (some l) fs (some m) level ts).fs.card ≤ l.config.max_files + 1) := by
  have hred : logger_log (some l) fs (some m) level ts =
      ⟨(logger_rotate_log_file
          (some { l with current_file_size :=
              l.current_file_size + ((format_message l.config ts level m).length + 1) })
          fs ts).1,
        (logger_rotate_log_file
          (some { l with current_file_size :=
              l.current_file_size + ((format_message l.config ts level m).length + 1) })
          fs ts).2.1,
        (if l.config.log_to_console then [format_message l.config ts level m] else []) ++
          (logger_rotate_log_file
            (some { l with current_file_size :=
                l.current_file_size + ((format_message l.config ts level m).length + 1) })
            fs ts).2.2.1,
        format_message l.config ts level m ::
          (logger_rotate_log_file
            (some { l with current_file_size :=
                l.current_file_size + ((format_message l.config ts level m).length + 1) })
            fs ts).2.2.2,
        true, 1⟩ := by
    simp only [logger_log, if_neg hlvl, hfile, hopen, and_self, if_true]
    rw [if_pos hsize]
  have hfs2 : (logger_rotate_log_file
      (some { l with current_file_size :=
          l.current_file_size + ((format_message l.config ts level m).length + 1) })
      fs ts).2.1 = insert 0 (rotate_files fs l.config.max_files) :=
    logger_rotate_fs _ fs ts hopen
  refine ⟨by simp only [hred], ?_, ?_, by simp only [hred], by simp only [hred], ?_⟩
  · simp only [hred]
    exact hfs2
  · simp only [hred]
    rw [hfs2]
    exact Finset.mem_insert_self 0 _
  · intro hb
    simp only [hred]
    rw [hfs2]
    exact rotated_card_le fs l.config.max_files hb

/-- Witness for the C9 theorem: the concrete logger state l1w sits 4
bytes below its 1 KB rotation threshold over the concrete file set
containing the base file and two rotated files; logging one line rotates
exactly once. -/
def l1w : LoggerPrivate :=
  { config :=
      { log_file := "logs/edgetrack.log",
        min_level := LogLevel.DEBUG,
        log_to_console := false,
        log_to_file := true,
        log_timestamp := false,
        log_sensor_data := true,
        max_file_size_kb := 1,
        max_files := 5 },
    log_file_open := true,
    current_file_size := 1020,
    file_count := 0 }

/-- Witness for the C9 theorem at the concrete state l1w and the file set
containing indices 0, 1 and 2. -/
theorem logger_rotation_spec_witness :
    (¬ LogLevel.INFO.toNat < l1w.config.min_level.toNat ∧
     l1w.config.log_to_file = true ∧
     l1w.log_file_open = true ∧
     l1w.config.max_file_size_kb * 1024 ≤
       l1w.current_file_size + ((format_message l1w.config "ts" LogLevel.INFO "hello").length + 1) ∧
     (format_message l1w.config "ts" LogLevel.INFO "Log file rotated").length + 1 <
       l1w.config.max_file_size_kb * 1024 ∧
     (∀ j ∈ ({0, 1, 2} : Finset Nat), j < l1w.config.max_files)) ∧
    (logger_log (some l1w) {0, 1, 2} (some "hello") LogLevel.INFO "ts").rotations = 1 ∧
    (logger_log (some l1w) {0, 1, 2} (some "hello") LogLevel.INFO "ts").fs.card ≤
      l1w.config.max_files + 1 :=
  ⟨by with_unfolding_all decide,
   (logger_rotation_spec l1w {0, 1, 2} "hello" "ts" LogLevel.INFO
      (by with_unfolding_all decide) (by with_unfolding_all decide)
      (by with_unfolding_all decide) (by with_unfolding_all decide)
      (by with_unfolding_all decide)).1,
   (logger_rotation_spec l1w {0, 1, 2} "hello" "ts" LogLevel.INFO
      (by with_unfolding_all decide) (by with_unfolding_all decide)
      (by with_unfolding_all decide) (by with_unfolding_all decide)
      (by with_unfolding_all decide)).2.2.2.2.2
     (by with_unfolding_all decide)⟩

/-- C10: logger_string_to_level is total and inverts
logger_level_to_string: every defined level maps back to itself through
its level name (the match is case insensitive), a NULL pointer maps to
INFO, and every string matching no level name maps to INFO. -/
theorem logger_level_round_trip :
    (∀ level : LogLevel,
      logger_string_to_level (some (logger_level_to_string level)) = level) ∧
    logger_string_to_level none = LogLevel.INFO ∧
    (∀ s : String, (∀ t ∈ level_strings, strcaseEq s t = false) →
      logger_string_to_level (some s) = LogLevel.INFO) := by
  refine ⟨?_, rfl, ?_⟩
  · intro level
    cases level <;> with_unfolding_all decide
  · intro s hs
    have hnone : (List.range level_strings.length).find?
        (fun i => strcaseEq s (level_strings.getD i "")) = none := by
      rw [List.find?_eq_none]
      intro i hi
      simp only [List.mem_range] at hi
      have hi5 : i < 5 := hi
      interval_cases i <;>
        simp [level_strings,
          hs "DEBUG" (by simp [level_strings]),
          hs "INFO" (by simp [level_strings]),
          hs "WARNING" (by simp [level_strings]),
          hs "ERROR" (by simp [level_strings]),
          hs "CRITICAL" (by simp [level_strings])]
    simp only [logger_string_to_level]
    rw [hnone]

/-- Witness for the C10 theorem: a string matching no level name maps to
INFO. -/
theorem logger_level_round_trip_witness :
    logger_string_to_level (some "voltage") = LogLevel.INFO :=
  (logger_level_round_trip).2.2 "voltage" (by with_unfolding_all decide)


end EdgeTrack
